import Mathlib

/-!
Shallow embedding of the KubeMOOC-Ops Azure-functions repository
(provisioning, deployment and deprovisioning workflows), used to check the
natural-language specification against the code.

Remote systems (PostgreSQL server, Azure identity service, Kubernetes API,
kustomize/kubectl subprocesses) are modelled as oracles: a small environment
record states, for each remote call a workflow step performs, which outcome
that call produces (success / not-found / failure).  The Lean functions then
replay the Python control flow of the orchestrators and step executors over
those outcomes.  Timing values and log output are not modelled.
-/

namespace KubeMOOC

/-! # Deprovisioning service
Source: `functions/deprovisioning-function/deprovisioning_service.py` -/

/-- `PROTECTED_NAMESPACES` from `deprovisioning_service.py`: namespaces that
must never be deleted. -/
def PROTECTED_NAMESPACES : List String :=
  ["default", "kube-system", "azure-alb-system",
   "project", "kube-public", "kube-node-lease",
   "azure-system", "gatekeeper-system"]

/-- Severity tag carried by a recorded error entry. -/
inductive Severity where
  | critical
  | warning
deriving DecidableEq, Repr

/-- One entry of an orchestrator `errors` list: the Python dictionaries
`{"operation": ..., "error": ..., "severity": ...}` with the human-readable
message dropped. -/
structure ErrEntry where
  operation : String
  severity : Severity
deriving DecidableEq, Repr

/-- Outcome of the PostgreSQL interaction inside `delete_database`:
the connection attempt, the `pg_database` existence probe, and (when the
database exists) the terminate-connections + `DROP DATABASE` sequence. -/
inductive DbOutcome where
  | connectFailed
  | absent
  | present (dropFails : Bool)
deriving DecidableEq, Repr

/-- Errors `delete_database` can raise. -/
inductive DbError where
  | missingPassword
  | connectionError
  | dropError
deriving DecidableEq, Repr

/-- Successful return value of `delete_database`. -/
structure DbDeleteResult where
  deleted : Bool
  database_name : String
deriving DecidableEq, Repr

/-- `database_name.replace("-", "_")` — PostgreSQL identifier sanitization. -/
def sanitizeDbName (databaseName : String) : String :=
  databaseName.replace "-" "_"

/-- `DeprovisioningService.delete_database`: requires the admin password to be
configured, connects, probes `pg_database`; an absent database is treated as
already deleted (`deleted=True`), otherwise connections are terminated and the
database dropped.  psycopg2 errors are re-raised. -/
def delete_database (hasAdminPassword : Bool) (databaseName : String)
    (o : DbOutcome) : Except DbError DbDeleteResult :=
  if !hasAdminPassword then
    .error .missingPassword
  else
    match o with
    | .connectFailed => .error .connectionError
    | .absent => .ok { deleted := true, database_name := sanitizeDbName databaseName }
    | .present dropFails =>
        if dropFails then .error .dropError
        else .ok { deleted := true, database_name := sanitizeDbName databaseName }

/-- Outcome of one `federated_identity_credentials.delete` call:
succeeded, `ResourceNotFoundError`, or some other exception. -/
inductive CredOutcome where
  | deleted
  | notFound
  | failed
deriving DecidableEq, Repr

/-- Remote-call outcomes consumed by `delete_federated_credentials`:
whether `get_identity_client` construction succeeds, and the outcome of the
two credential deletion calls. -/
structure FedEnv where
  clientOk : Bool
  dbCred : CredOutcome
  kvCred : CredOutcome
deriving DecidableEq, Repr

/-- Successful return value of `delete_federated_credentials`. -/
structure CredsDeleteResult where
  database_credential : Bool
  keyvault_credential : Bool
  errors : List ErrEntry
deriving DecidableEq, Repr

/-- Per-credential handling inside `delete_federated_credentials`: success and
`ResourceNotFoundError` both yield `True`; any other exception records a
warning-severity error entry and leaves the flag `False`. -/
def credStep (operation : String) (o : CredOutcome) : Bool × List ErrEntry :=
  match o with
  | .deleted => (true, [])
  | .notFound => (true, [])
  | .failed => (false, [{ operation := operation, severity := .warning }])

/-- `DeprovisioningService.delete_federated_credentials`: deletes the
`database-workload-identity-{branch}` and `keyvault-workload-identity-{branch}`
credentials independently, tolerating not-found and downgrading other failures
to warning entries.  Raises only if the identity client cannot be built. -/
def delete_federated_credentials (env : FedEnv) :
    Except Unit CredsDeleteResult :=
  if !env.clientOk then
    .error ()
  else
    let db := credStep "database_credential_deletion" env.dbCred
    let kv := credStep "keyvault_credential_deletion" env.kvCred
    .ok { database_credential := db.1
          keyvault_credential := kv.1
          errors := db.2 ++ kv.2 }

/-- Outcome of `suspend_cronjobs_in_namespace`: the list+patch loop succeeds
suspending `n` CronJobs, the namespace is gone (`ApiException` 404, returns 0),
or a non-404 `ApiException` / unexpected exception is re-raised. -/
inductive CronOutcome where
  | ok (n : Nat)
  | nsNotFound
  | apiError
  | otherError
deriving DecidableEq, Repr

/-- `DeprovisioningService.suspend_cronjobs_in_namespace`. -/
def suspend_cronjobs_in_namespace (o : CronOutcome) : Except Unit Nat :=
  match o with
  | .ok n => .ok n
  | .nsNotFound => .ok 0
  | .apiError => .error ()
  | .otherError => .error ()

/-- Outcome of the `read_namespace` existence probe in `delete_namespace`. -/
inductive ReadNsOutcome where
  | found
  | notFound
  | apiError
deriving DecidableEq, Repr

/-- Remote-call outcomes consumed by `delete_namespace`: cluster-credential
acquisition (client build, `list_cluster_admin_credentials`, non-empty
kubeconfigs, `load_kube_config`), the namespace existence probe, the CronJob
suspension step and the final `delete_namespace` API call. -/
structure NsEnv where
  credsOk : Bool
  readNs : ReadNsOutcome
  cron : CronOutcome
  deleteOk : Bool
deriving DecidableEq, Repr

/-- Errors `delete_namespace` can raise. -/
inductive NsError where
  | protectedNamespace
  | credentialsError
  | readError
  | cronError
  | deleteError
deriving DecidableEq, Repr

/-- Successful return value of `delete_namespace`. -/
structure NsDeleteResult where
  deleted : Bool
  namespace_name : String
  cronjobs_suspended : Nat
  already_deleted : Bool
deriving DecidableEq, Repr

/-- Remote calls `delete_namespace` can issue, in order, used to record which
remote operations were actually attempted on a given path. -/
inductive RemoteCall where
  | getCredentials
  | readNamespace
  | suspendCronjobs
  | deleteNamespaceCall
deriving DecidableEq, Repr

/-- `DeprovisioningService.delete_namespace`, paired with the trace of remote
calls it issues.  The protected-namespace guard raises `ValueError` before any
remote call; a not-found namespace returns early as already deleted; the
CronJob suspension call is not wrapped in a handler of its own, so a raising
suspension propagates out of `delete_namespace` before the deletion call. -/
def delete_namespace (namespaceName : String) (env : NsEnv) :
    Except NsError NsDeleteResult × List RemoteCall :=
  if namespaceName ∈ PROTECTED_NAMESPACES then
    (.error .protectedNamespace, [])
  else if !env.credsOk then
    (.error .credentialsError, [.getCredentials])
  else
    match env.readNs with
    | .apiError => (.error .readError, [.getCredentials, .readNamespace])
    | .notFound =>
        (.ok { deleted := true, namespace_name := namespaceName
               cronjobs_suspended := 0, already_deleted := true },
         [.getCredentials, .readNamespace])
    | .found =>
        match suspend_cronjobs_in_namespace env.cron with
        | .error () =>
            (.error .cronError, [.getCredentials, .readNamespace, .suspendCronjobs])
        | .ok n =>
            if !env.deleteOk then
              (.error .deleteError,
               [.getCredentials, .readNamespace, .suspendCronjobs, .deleteNamespaceCall])
            else
              (.ok { deleted := true, namespace_name := namespaceName
                     cronjobs_suspended := n, already_deleted := false },
               [.getCredentials, .readNamespace, .suspendCronjobs, .deleteNamespaceCall])

/-- Remote-call outcomes for one whole `deprovision_environment` run. -/
structure DeprovEnv where
  ns : NsEnv
  fed : FedEnv
  hasAdminPassword : Bool
  db : DbOutcome
deriving DecidableEq, Repr

/-- The `operations` dictionary accumulated by `deprovision_environment`. -/
structure DeprovOperations where
  database_deleted : Bool
  database_name : Option String
  database_credential : Bool
  keyvault_credential : Bool
  namespace_deleted : Bool
  namespace_name : String
  cronjobs_suspended : Nat
deriving DecidableEq, Repr

/-- The aggregate result record returned by `deprovision_environment`
(timing values and message text omitted). -/
structure DeprovResult where
  status : String
  branch_name : String
  operations : DeprovOperations
  errors : List ErrEntry
deriving DecidableEq, Repr

/-- `DeprovisioningService.deprovision_environment`: runs the three deletion
steps in order, each inside its own handler, so a failing step records an
error entry (namespace and database failures critical, credential failures
warning) and never stops the following steps; overall status is `"error"`
exactly when a critical entry was recorded. -/
def deprovision_environment (branchName : String) (env : DeprovEnv) :
    DeprovResult :=
  let ops0 : DeprovOperations :=
    { database_deleted := false, database_name := none
      database_credential := false, keyvault_credential := false
      namespace_deleted := false, namespace_name := "feature-" ++ branchName
      cronjobs_suspended := 0 }
  -- Step 1/3: namespace deletion
  let nsStep := (delete_namespace ("feature-" ++ branchName) env.ns).1
  let ops1 := match nsStep with
    | .ok r => { ops0 with namespace_deleted := r.deleted
                           cronjobs_suspended := r.cronjobs_suspended }
    | .error _ => ops0
  let errs1 : List ErrEntry := match nsStep with
    | .ok _ => []
    | .error _ => [{ operation := "namespace_deletion", severity := .critical }]
  -- Step 2/3: federated credential deletion
  let credStepR := delete_federated_credentials env.fed
  let ops2 := match credStepR with
    | .ok r => { ops1 with database_credential := r.database_credential
                           keyvault_credential := r.keyvault_credential }
    | .error _ => ops1
  let errs2 : List ErrEntry := match credStepR with
    | .ok r => errs1 ++ r.errors
    | .error _ =>
        errs1 ++ [{ operation := "credentials_deletion", severity := .warning }]
  -- Step 3/3: database deletion
  let dbStep := delete_database env.hasAdminPassword branchName env.db
  let ops3 := match dbStep with
    | .ok r => { ops2 with database_deleted := r.deleted
                           database_name := some r.database_name }
    | .error _ => ops2
  let errs3 : List ErrEntry := match dbStep with
    | .ok _ => errs2
    | .error _ =>
        errs2 ++ [{ operation := "database_deletion", severity := .critical }]
  -- Overall status: "error" iff a critical-severity entry was recorded.
  let criticalErrors := errs3.filter (fun e => e.severity = .critical)
  let status := if criticalErrors.isEmpty then "success" else "error"
  { status := status, branch_name := branchName, operations := ops3
    errors := errs3 }

/-! # Deployment service
Source: `functions/deployment-function/services/deployment_service.py` and
`functions/deployment-function/models/requests.py` -/

/-- `HealthCheck` model from `models/requests.py`. -/
structure HealthCheck where
  resource_type : String
  resource_name : String
  status : String
  ready : Bool
  message : String
deriving DecidableEq, Repr

/-- Health-check record built for one deployment inside
`_perform_health_checks`: `ready_replicas` and `replicas` are the Kubernetes
API fields, `None` coerced to `0` by the Python `or 0`. -/
def mkDeploymentCheck (name : String) (readyReplicas replicas : Option Nat) :
    HealthCheck :=
  let rr := readyReplicas.getD 0
  let r := replicas.getD 0
  let ready := rr == r && r > 0
  { resource_type := "deployment", resource_name := name
    status := if ready then "ready" else "not-ready"
    ready := ready
    message := toString rr ++ "/" ++ toString r ++ " pods ready" }

/-- Health-check record built for one statefulset inside
`_perform_health_checks` (same readiness rule as deployments). -/
def mkStatefulSetCheck (name : String) (readyReplicas replicas : Option Nat) :
    HealthCheck :=
  let rr := readyReplicas.getD 0
  let r := replicas.getD 0
  let ready := rr == r && r > 0
  { resource_type := "statefulset", resource_name := name
    status := if ready then "ready" else "not-ready"
    ready := ready
    message := toString rr ++ "/" ++ toString r ++ " pods ready" }

/-- Health-check record built for one service inside
`_perform_health_checks`: `ports` is `service.spec.ports or []` given as its
length; a service is ready when it has at least one port. -/
def mkServiceCheck (name : String) (ports : Option Nat) : HealthCheck :=
  let n := ports.getD 0
  let ready := n > 0
  { resource_type := "service", resource_name := name
    status := if ready then "ready" else "not-ready"
    ready := ready
    message := "Service active with " ++ toString n ++ " ports" }

/-- The synthetic record `_perform_health_checks` appends when an exception
left it with no records at all. -/
def syntheticFailedCheck : HealthCheck :=
  { resource_type := "cluster", resource_name := "health-check"
    status := "failed", ready := false
    message := "Health check failed" }

/-- Cluster state and failure point consumed by `_perform_health_checks`:
the listed deployments, statefulsets and services of the namespace (name with
`ready_replicas`/`replicas`, or port count), and `failAfter = some k` meaning
an exception is raised inside the `try` block after `k` records were appended
(`k = 0`: the kubeconfig write or the first list call already raised). -/
structure HcEnv where
  deployments : List (String × Option Nat × Option Nat)
  statefulsets : List (String × Option Nat × Option Nat)
  services : List (String × Option Nat)
  failAfter : Option Nat
deriving DecidableEq, Repr

/-- All records the `try` block of `_perform_health_checks` would append on a
fault-free run, in source order. -/
def hcRecords (env : HcEnv) : List HealthCheck :=
  env.deployments.map (fun d => mkDeploymentCheck d.1 d.2.1 d.2.2)
    ++ env.statefulsets.map (fun d => mkStatefulSetCheck d.1 d.2.1 d.2.2)
    ++ env.services.map (fun s => mkServiceCheck s.1 s.2)

/-- `DeploymentService._perform_health_checks`: never raises; an exception is
swallowed, keeping the partial record list, and only when no record was built
yet does it substitute the single synthetic failed record.  The temporary
kubeconfig cleanup lives in a `finally` here. -/
def perform_health_checks (env : HcEnv) : List HealthCheck :=
  match env.failAfter with
  | none => hcRecords env
  | some k =>
      let kept := (hcRecords env).take k
      if kept.isEmpty then [syntheticFailedCheck] else kept

/-- Remote-call outcomes of `_configure_k8s_client`: whether
`_write_kubeconfig_to_temp` succeeds, and whether `load_kube_config` +
`ApiClient` construction succeed afterwards. -/
structure ConfigureEnv where
  writeOk : Bool
  loadOk : Bool
deriving DecidableEq, Repr

/-- `DeploymentService._configure_k8s_client`, paired with whether the
temporary kubeconfig file is still on disk when the call finishes.  The
`unlink` sits on the straight-line success path (no `finally`): when
`load_kube_config` raises after the file was written, the `except` re-raises
without deleting it. -/
def configure_k8s_client (env : ConfigureEnv) : Except String Unit × Bool :=
  if !env.writeOk then (.error "kubeconfig write failed", false)
  else if !env.loadOk then (.error "failed to configure client", true)
  else (.ok (), false)

/-- Remote-call outcomes of `_deploy_to_aks`: the kustomization templating
(file read/substitute/write), the kubeconfig write, and the
`kustomize build | kubectl apply` pipeline whose parsed resource list is the
step's value. -/
structure AksEnv where
  templateOk : Bool
  writeOk : Bool
  applyOutput : Except String (List String)
deriving Repr

/-- `DeploymentService._deploy_to_aks`, paired with whether the temporary
kubeconfig file is still on disk when the call finishes.  As in
`_configure_k8s_client` the `unlink` runs only after a successful apply. -/
def deploy_to_aks (env : AksEnv) : Except String (List String) × Bool :=
  if !env.templateOk then (.error "templating failed", false)
  else if !env.writeOk then (.error "kubeconfig write failed", false)
  else
    match env.applyOutput with
    | .error e => (.error e, true)
    | .ok rs => (.ok rs, false)

/-- `_generate_deployment_url`: nip.io URL for `feature-*` namespaces,
`kubemooc.dev` fallback otherwise. -/
def generate_deployment_url (namespaceName : String) : String :=
  if namespaceName.startsWith "feature-" then
    "https://" ++ (namespaceName.drop 8) ++ ".23.98.101.23.nip.io"
  else
    "https://" ++ namespaceName ++ ".kubemooc.dev"

/-- `DeploymentResponse` model from `models/requests.py` (`ns` stands for the
Python field `namespace`, a reserved word in Lean). -/
structure DeploymentResponse where
  success : Bool
  message : String
  ns : String
  deployment_url : Option String
  health_checks : List HealthCheck
  error_details : Option String
  deployed_resources : List String
deriving DecidableEq, Repr

/-- Remote-call outcomes for one whole `deploy` run.  Step 1
(`_verify_acr_images`) is not represented because, as written, its loop body
only logs and cannot raise. -/
structure DeployEnv where
  downloadOk : Bool
  cfg : ConfigureEnv
  aks : AksEnv
  hc : HcEnv
deriving Repr

/-- `DeploymentService.deploy`: runs verification, manifest download, client
configuration, templating+apply and health checks in order; any exception up
to the apply step is caught at the top and produces a failure response with
`error_details`; the health-check step cannot raise, so once the apply
succeeded the response always has `success := true`. -/
def deploy (branchName : String) (env : DeployEnv) : DeploymentResponse :=
  let ns := "feature-" ++ branchName
  let fail := fun (e : String) =>
    ({ success := false, message := "Deployment failed", ns := ns
       deployment_url := none, health_checks := [], error_details := some e
       deployed_resources := [] } : DeploymentResponse)
  if !env.downloadOk then fail "manifest download failed"
  else
    match (configure_k8s_client env.cfg).1 with
    | .error e => fail e
    | .ok () =>
        match (deploy_to_aks env.aks).1 with
        | .error e => fail e
        | .ok rs =>
            { success := true
              message := "Successfully deployed branch " ++ branchName
                ++ " to namespace " ++ ns
              ns := ns
              deployment_url := some (generate_deployment_url ns)
              health_checks := perform_health_checks env.hc
              error_details := none
              deployed_resources := rs }

/-! # Request validation
Sources: `functions/deprovisioning-function/models_requests.py` and
`functions/deployment-function/models/requests.py` -/

/-- `[a-z0-9]` of the branch-name regex (ASCII ranges, as in Python `re`). -/
def isLowerAlnum (c : Char) : Bool :=
  ('a' ≤ c && c ≤ 'z') || ('0' ≤ c && c ≤ '9')

/-- `[-a-z0-9]` of the branch-name regex. -/
def isLabelChar (c : Char) : Bool :=
  isLowerAlnum c || c == '-'

/-- Full match of `[a-z0-9]([-a-z0-9]*[a-z0-9])?` against a character list:
non-empty, every character in `[-a-z0-9]`, first and last in `[a-z0-9]`. -/
def labelMatch (l : List Char) : Bool :=
  match l.head?, l.getLast? with
  | some a, some b => isLowerAlnum a && isLowerAlnum b && l.all isLabelChar
  | _, _ => false

/-- `re.match(r"^[a-z0-9]([-a-z0-9]*[a-z0-9])?$", v)` is truthy: the pattern
is anchored on both sides, but Python `$` also matches just before one string-
final newline, so a single trailing `\n` is tolerated. -/
def regexAccepts (v : String) : Bool :=
  labelMatch v.data ||
    (v.data.getLast? == some '\n' && labelMatch v.data.dropLast)

/-- `DeprovisionRequest` construction succeeds for this `branch_name`:
pydantic `min_length=1` / `max_length=63` plus the `validate_branch_name`
field validator (non-empty, DNS-1123 regex, length cap). -/
def deprovisionRequestAccepts (v : String) : Bool :=
  1 ≤ v.length && v.length ≤ 63 &&
    !(v.length == 0) && regexAccepts v && v.length ≤ 63

/-- Python `str.strip()`: remove leading and trailing whitespace (here the
ASCII whitespace set of `Char.isWhitespace`). -/
def pyStrip (v : String) : String :=
  ⟨((v.data.dropWhile Char.isWhitespace).reverse.dropWhile
      Char.isWhitespace).reverse⟩

/-- `DeploymentRequest.validate_branch_name`: rejects only an empty or
whitespace-only branch name and returns the stripped value. -/
def deploymentValidateBranchName (v : String) : Option String :=
  if v == "" || pyStrip v == "" then none else some (pyStrip v)

/-! # Provisioning service and HTTP entry point
Sources: `functions/provisioning-function/services/provisioning_service.py`
and `functions/provisioning-function/function_app.py` -/

/-- JSON-ish values of the provisioning response body (timing map abbreviated
to one constructor; its inner keys are not at issue). -/
inductive PValue where
  | s (v : String)
  | b (v : Bool)
  | timing
deriving DecidableEq, Repr

/-- Step outcomes for one `provision_environment` run: each of
`create_database`, `create_federated_credential`, `create_namespace` either
returns its boolean or raises. -/
structure ProvEnv where
  createDatabase : Except String Bool
  createCredential : Except String Bool
  createNamespace : Except String Bool
deriving Repr

/-- `ProvisioningService.provision_environment`: the three steps run in
order, the first exception aborting the rest; a fault-free run returns the
full success record, a caught exception returns the reduced error record
(`status`, `branch_name`, `error`, `timing` only). -/
def provision_environment (branchName : String) (env : ProvEnv) :
    List (String × PValue) :=
  let errorBody := fun (e : String) =>
    [("status", PValue.s "error"),
     ("branch_name", PValue.s branchName),
     ("error", PValue.s ("Provisioning failed for branch " ++ branchName
        ++ ": " ++ e)),
     ("timing", PValue.timing)]
  match env.createDatabase with
  | .error e => errorBody e
  | .ok dbCreated =>
      match env.createCredential with
      | .error e => errorBody e
      | .ok credCreated =>
          match env.createNamespace with
          | .error e => errorBody e
          | .ok nsCreated =>
              [("status", PValue.s "success"),
               ("branch_name", PValue.s branchName),
               ("database_created", PValue.b dbCreated),
               ("credential_created", PValue.b credCreated),
               ("namespace_created", PValue.b nsCreated),
               ("message", PValue.s ("Environment for branch " ++ branchName
                  ++ " provisioned successfully")),
               ("timing", PValue.timing)]

/-- How far the HTTP layer of `function_app.py` gets before invoking the
workflow: missing body and pydantic validation failure are rejected with 400;
otherwise the branch name reaches the service.  `initOutcome` is whether
`Settings()` / `ProvisioningService(...)` construction raises (`ValueError`
is answered with 400, any other exception with 500). -/
inductive ProvParse where
  | missingBody
  | validationError
  | ok (branch : String)
deriving DecidableEq, Repr

/-- Outcome of service construction in the HTTP handler. -/
inductive InitOutcome where
  | ok
  | valueError
  | otherError
deriving DecidableEq, Repr

/-- The `provision` HTTP route of `function_app.py`: status code and JSON
body.  Every completed workflow result — success or logical failure — is
serialized with HTTP 200 after the `correlation_id` key is added. -/
def provision_http (p : ProvParse) (init : InitOutcome) (env : ProvEnv)
    (correlationId : String) : Nat × List (String × PValue) :=
  match p with
  | .missingBody =>
      (400, [("status", PValue.s "error"),
             ("message", PValue.s "Request body is required"),
             ("correlation_id", PValue.s correlationId)])
  | .validationError =>
      (400, [("status", PValue.s "error"),
             ("message", PValue.s "Invalid request"),
             ("correlation_id", PValue.s correlationId)])
  | .ok branch =>
      match init with
      | .valueError =>
          (400, [("status", PValue.s "error"),
                 ("message", PValue.s "Validation error"),
                 ("correlation_id", PValue.s correlationId)])
      | .otherError =>
          (500, [("status", PValue.s "error"),
                 ("message", PValue.s "Internal server error"),
                 ("correlation_id", PValue.s correlationId)])
      | .ok =>
          (200, provision_environment branch env
                  ++ [("correlation_id", PValue.s correlationId)])

/-! # Shared lemmas -/

/-- No namespace of the form `feature-{branch}` is protected: every protected
name starts with a letter other than `f`. -/
theorem feature_prefix_not_protected (b : String) :
    ("feature-" ++ b) ∉ PROTECTED_NAMESPACES := by
  intro h
  have hd : ("feature-" ++ b).data
      = 'f' :: 'e' :: 'a' :: 't' :: 'u' :: 'r' :: 'e' :: '-' :: b.data := by
    rw [String.data_append]
    rfl
  simp only [PROTECTED_NAMESPACES, List.mem_cons, List.not_mem_nil, or_false] at h
  rcases h with h | h | h | h | h | h | h | h <;>
  · have hc := congrArg String.data h
    rw [hd] at hc
    injection hc with h1 _
    exact absurd h1 (by decide)

/-- The recorded `database_deleted` flag reflects the database step alone. -/
theorem deprov_database_deleted (b : String) (env : DeprovEnv) :
    (deprovision_environment b env).operations.database_deleted
      = (match delete_database env.hasAdminPassword b env.db with
         | .ok r => r.deleted
         | .error _ => false) := by
  rcases h1 : (delete_namespace ("feature-" ++ b) env.ns).1 with e1 | r1 <;>
    rcases h2 : delete_federated_credentials env.fed with e2 | r2 <;>
      rcases h3 : delete_database env.hasAdminPassword b env.db with e3 | r3 <;>
        simp [deprovision_environment, h1, h2, h3]

/-- The recorded credential flags reflect the federated-credential step
alone. -/
theorem deprov_credential_flags (b : String) (env : DeprovEnv) :
    ((deprovision_environment b env).operations.database_credential,
     (deprovision_environment b env).operations.keyvault_credential)
      = (match delete_federated_credentials env.fed with
         | .ok r => (r.database_credential, r.keyvault_credential)
         | .error _ => (false, false)) := by
  rcases h1 : (delete_namespace ("feature-" ++ b) env.ns).1 with e1 | r1 <;>
    rcases h2 : delete_federated_credentials env.fed with e2 | r2 <;>
      rcases h3 : delete_database env.hasAdminPassword b env.db with e3 | r3 <;>
        simp [deprovision_environment, h1, h2, h3]

/-- The recorded `namespace_deleted` flag reflects the namespace step alone. -/
theorem deprov_namespace_deleted (b : String) (env : DeprovEnv) :
    (deprovision_environment b env).operations.namespace_deleted
      = (match (delete_namespace ("feature-" ++ b) env.ns).1 with
         | .ok r => r.deleted
         | .error _ => false) := by
  rcases h1 : (delete_namespace ("feature-" ++ b) env.ns).1 with e1 | r1 <;>
    rcases h2 : delete_federated_credentials env.fed with e2 | r2 <;>
      rcases h3 : delete_database env.hasAdminPassword b env.db with e3 | r3 <;>
        simp [deprovision_environment, h1, h2, h3]

/-- The returned status is computed from the recorded error list by the
critical-severity filter. -/
theorem deprov_status_eq (b : String) (env : DeprovEnv) :
    (deprovision_environment b env).status
      = (if ((deprovision_environment b env).errors.filter
              (fun e => e.severity = Severity.critical)).isEmpty
         then "success" else "error") := by
  rcases h1 : (delete_namespace ("feature-" ++ b) env.ns).1 with e1 | r1 <;>
    rcases h2 : delete_federated_credentials env.fed with e2 | r2 <;>
      rcases h3 : delete_database env.hasAdminPassword b env.db with e3 | r3 <;>
        simp [deprovision_environment, h1, h2, h3]

/-- The critical-severity status computation, as a statement about an
arbitrary error list. -/
theorem status_filter_iff (errs : List ErrEntry) :
    ((if (errs.filter (fun e => e.severity = Severity.critical)).isEmpty
       then "success" else "error") = "error")
      ↔ ∃ e ∈ errs, e.severity = Severity.critical := by
  by_cases h : (errs.filter (fun e => e.severity = Severity.critical)).isEmpty
  · rw [if_pos h]
    rw [List.isEmpty_iff, List.filter_eq_nil_iff] at h
    simp only [decide_eq_true_eq] at h
    constructor
    · intro hc
      exact absurd hc (by decide)
    · rintro ⟨e, he, hcrit⟩
      exact absurd hcrit (h e he)
  · rw [if_neg h]
    rw [List.isEmpty_iff] at h
    rcases List.exists_mem_of_ne_nil _ h with ⟨e, he⟩
    rw [List.mem_filter] at he
    simp only [decide_eq_true_eq] at he
    exact iff_of_true rfl ⟨e, he.1, he.2⟩

/-! # Claims -/

/-- C1: For every deprovision request that `deprovision_environment` runs to
completion, the returned status is `"error"` iff the recorded errors list has
a critical-severity entry; with only warning-severity errors the status is
`"success"` and the errors are still reported; and each of the three deletion
steps is attempted regardless of the others' outcomes (each step's recorded
outcome depends only on that step's own remote-call outcomes). -/
theorem C1_deprovision_status_aggregation (b : String) (env : DeprovEnv) :
    ((deprovision_environment b env).status = "error" ↔
        ∃ e ∈ (deprovision_environment b env).errors,
          e.severity = Severity.critical) ∧
    ((∀ e ∈ (deprovision_environment b env).errors,
        e.severity = Severity.warning) →
      (deprovision_environment b env).status = "success") ∧
    (∀ ns' fed',
      (deprovision_environment b
          { env with ns := ns', fed := fed' }).operations.database_deleted
        = (deprovision_environment b env).operations.database_deleted) ∧
    (∀ ns' pw' db',
      ((deprovision_environment b
          { env with
            ns := ns'
            hasAdminPassword := pw'
            db := db' }).operations.database_credential,
       (deprovision_environment b
          { env with
            ns := ns'
            hasAdminPassword := pw'
            db := db' }).operations.keyvault_credential)
        = ((deprovision_environment b env).operations.database_credential,
           (deprovision_environment b env).operations.keyvault_credential)) ∧
    (∀ fed' pw' db',
      (deprovision_environment b
          { env with
            fed := fed'
            hasAdminPassword := pw'
            db := db' }).operations.namespace_deleted
        = (deprovision_environment b env).operations.namespace_deleted) := by
  refine ⟨?_, ?_, ?_, ?_, ?_⟩
  · rw [deprov_status_eq]
    exact status_filter_iff _
  · intro hw
    rw [deprov_status_eq]
    rw [if_pos]
    rw [List.isEmpty_iff, List.filter_eq_nil_iff]
    intro e he
    simp only [decide_eq_true_eq]
    rw [hw e he]
    decide
  · intro ns' fed'
    rw [deprov_database_deleted, deprov_database_deleted]
  · intro ns' pw' db'
    rw [deprov_credential_flags, deprov_credential_flags]
  · intro fed' pw' db'
    rw [deprov_namespace_deleted, deprov_namespace_deleted]

/-- Witness for C1 at a concrete run whose only error is a warning-severity
credential failure: the antecedent of the warning-only clause is discharged
by evaluation and status is `"success"`. -/
theorem C1_deprovision_status_aggregation_witness :
    (∀ e ∈ (deprovision_environment "x"
        ⟨⟨true, .notFound, .ok 0, true⟩, ⟨true, .failed, .notFound⟩,
         true, .absent⟩).errors, e.severity = Severity.warning) ∧
    (deprovision_environment "x"
        ⟨⟨true, .notFound, .ok 0, true⟩, ⟨true, .failed, .notFound⟩,
         true, .absent⟩).status = "success" :=
  ⟨by decide,
   (C1_deprovision_status_aggregation "x"
      ⟨⟨true, .notFound, .ok 0, true⟩, ⟨true, .failed, .notFound⟩,
       true, .absent⟩).2.1 (by decide)⟩

/-- C5: When the namespace probe, both federated-credential deletions and the
database probe all report not-found (and the remote connections themselves
succeed), `deprovision_environment` returns status `"success"`, every deleted
flag `true`, and an empty error list — absence alone never yields an error. -/
theorem C5_absent_resources_success (b : String) (cron : CronOutcome)
    (del : Bool) :
    (deprovision_environment b
        ⟨⟨true, .notFound, cron, del⟩, ⟨true, .notFound, .notFound⟩,
         true, .absent⟩).status = "success" ∧
    (deprovision_environment b
        ⟨⟨true, .notFound, cron, del⟩, ⟨true, .notFound, .notFound⟩,
         true, .absent⟩).operations.namespace_deleted = true ∧
    (deprovision_environment b
        ⟨⟨true, .notFound, cron, del⟩, ⟨true, .notFound, .notFound⟩,
         true, .absent⟩).operations.database_deleted = true ∧
    (deprovision_environment b
        ⟨⟨true, .notFound, cron, del⟩, ⟨true, .notFound, .notFound⟩,
         true, .absent⟩).operations.database_credential = true ∧
    (deprovision_environment b
        ⟨⟨true, .notFound, cron, del⟩, ⟨true, .notFound, .notFound⟩,
         true, .absent⟩).operations.keyvault_credential = true ∧
    (deprovision_environment b
        ⟨⟨true, .notFound, cron, del⟩, ⟨true, .notFound, .notFound⟩,
         true, .absent⟩).errors = [] := by
  have hns : (delete_namespace ("feature-" ++ b) ⟨true, .notFound, cron, del⟩).1
      = .ok { deleted := true, namespace_name := "feature-" ++ b
              cronjobs_suspended := 0, already_deleted := true } := by
    unfold delete_namespace
    rw [if_neg (feature_prefix_not_protected b)]
    rfl
  refine ⟨?_, ?_, ?_, ?_, ?_, ?_⟩ <;>
    simp [deprovision_environment, hns, delete_federated_credentials,
      credStep, delete_database]

/-- C7: For every namespace in the protected set, `delete_namespace` fails
with the protected-namespace validation error and issues no remote call at
all, whatever the remote systems would have answered. -/
theorem C7_protected_namespace_guard (name : String) (env : NsEnv)
    (h : name ∈ PROTECTED_NAMESPACES) :
    delete_namespace name env = (.error .protectedNamespace, []) := by
  unfold delete_namespace
  rw [if_pos h]

/-- Witness for C7 at `"kube-system"` and an arbitrary concrete remote
environment. -/
theorem C7_protected_namespace_guard_witness :
    "kube-system" ∈ PROTECTED_NAMESPACES ∧
    delete_namespace "kube-system" ⟨true, .found, .ok 3, true⟩
      = (.error .protectedNamespace, []) :=
  ⟨by decide,
   C7_protected_namespace_guard "kube-system" ⟨true, .found, .ok 3, true⟩
     (by decide)⟩

/-- C10: The deprovisioning workflow always targets `feature-{branch}`, no
such name is in the protected set, and hence the protected-namespace error of
`delete_namespace` is unreachable from `deprovision_environment` for every
branch name and every remote environment. -/
theorem C10_protected_guard_unreachable (b : String) (env : DeprovEnv) :
    (deprovision_environment b env).operations.namespace_name
        = "feature-" ++ b ∧
    ("feature-" ++ b) ∉ PROTECTED_NAMESPACES ∧
    (delete_namespace ("feature-" ++ b) env.ns).1
        ≠ Except.error NsError.protectedNamespace := by
  refine ⟨?_, feature_prefix_not_protected b, ?_⟩
  · rcases h1 : (delete_namespace ("feature-" ++ b) env.ns).1 with e1 | r1 <;>
      rcases h2 : delete_federated_credentials env.fed with e2 | r2 <;>
        rcases h3 : delete_database env.hasAdminPassword b env.db with e3 | r3 <;>
          simp [deprovision_environment, h1, h2, h3]
  · unfold delete_namespace
    rw [if_neg (feature_prefix_not_protected b)]
    rcases env.ns with ⟨credsOk, readNs, cron, del⟩
    rcases credsOk with _ | _
    · simp
    · rcases readNs with _ | _ | _
      · rcases hc : suspend_cronjobs_in_namespace cron with e | n
        · simp [hc]
        · rcases del with _ | _ <;> simp [hc]
      · simp
      · simp

/-- C3 counterexample: with a found namespace and a CronJob suspension that
raises a non-404 API error, `delete_namespace` propagates the failure and the
namespace deletion call is never issued — the claim that suspension failure
never blocks deletion is false on the code. -/
theorem C3_counterexample :
    (delete_namespace "feature-x" ⟨true, .found, .apiError, true⟩).1
        = Except.error NsError.cronError ∧
    RemoteCall.deleteNamespaceCall
        ∉ (delete_namespace "feature-x" ⟨true, .found, .apiError, true⟩).2 := by
  constructor
  · rfl
  · decide

/-- C3 amended: CronJob suspension is tolerant only of the namespace-not-found
case (it then reports zero suspensions and deletion proceeds); any suspension
failure that raises aborts `delete_namespace` before the deletion call is
issued. -/
theorem C3_amended_cronjob_suspension (name : String) (env : NsEnv)
    (hprot : name ∉ PROTECTED_NAMESPACES) (hcreds : env.credsOk = true)
    (hread : env.readNs = ReadNsOutcome.found) :
    ((env.cron = CronOutcome.apiError ∨ env.cron = CronOutcome.otherError) →
      (delete_namespace name env).1 = Except.error NsError.cronError ∧
      RemoteCall.deleteNamespaceCall ∉ (delete_namespace name env).2) ∧
    ((env.cron = CronOutcome.nsNotFound ∨ (∃ n, env.cron = CronOutcome.ok n)) →
      RemoteCall.deleteNamespaceCall ∈ (delete_namespace name env).2 ∧
      (env.deleteOk = true → ∃ n,
        (delete_namespace name env).1
          = Except.ok { deleted := true, namespace_name := name
                        cronjobs_suspended := n, already_deleted := false })) := by
  constructor
  · intro hc
    unfold delete_namespace
    rw [if_neg hprot]
    rcases hc with hc | hc <;> simp [hcreds, hread, hc,
      suspend_cronjobs_in_namespace]
  · intro hc
    unfold delete_namespace
    rw [if_neg hprot]
    rcases hc with hc | ⟨n, hc⟩ <;>
    · constructor
      · simp [hcreds, hread, hc, suspend_cronjobs_in_namespace]
        split <;> simp
      · intro hdel
        simp [hcreds, hread, hc, hdel, suspend_cronjobs_in_namespace]

/-- Witness for C3 amended: a not-found suspension still leads to a completed
deletion, and a raising suspension aborts it. -/
theorem C3_amended_cronjob_suspension_witness :
    RemoteCall.deleteNamespaceCall
        ∈ (delete_namespace "feature-x" ⟨true, .found, .nsNotFound, true⟩).2 ∧
    (∃ n, (delete_namespace "feature-x" ⟨true, .found, .nsNotFound, true⟩).1
        = Except.ok { deleted := true, namespace_name := "feature-x"
                      cronjobs_suspended := n, already_deleted := false }) :=
  have h := (C3_amended_cronjob_suspension "feature-x"
    ⟨true, .found, .nsNotFound, true⟩ (by decide) rfl rfl).2 (Or.inl rfl)
  ⟨h.1, h.2 rfl⟩

/-- C2: Once the manifest download, client configuration and templating+apply
steps complete without exception, `deploy` reports `success = true` no matter
what the health checks find; and when the health-check step raises before any
record was built, the response carries exactly the one synthetic failed
record (status `"failed"`, `ready = false`) instead of an empty list. -/
theorem C2_deploy_success_and_synthetic_check (b : String) (env : DeployEnv)
    (h1 : env.downloadOk = true)
    (h2 : (configure_k8s_client env.cfg).1 = Except.ok ())
    (h3 : ∃ rs, (deploy_to_aks env.aks).1 = Except.ok rs) :
    (deploy b env).success = true ∧
    (deploy b env).health_checks = perform_health_checks env.hc ∧
    (∀ k, env.hc.failAfter = some k → (hcRecords env.hc).take k = [] →
      (deploy b env).health_checks = [syntheticFailedCheck]) ∧
    syntheticFailedCheck.status = "failed" ∧
    syntheticFailedCheck.ready = false := by
  rcases h3 with ⟨rs, h3⟩
  refine ⟨?_, ?_, ?_, rfl, rfl⟩
  · simp [deploy, h1, h2, h3]
  · simp [deploy, h1, h2, h3]
  · intro k hk htake
    simp [deploy, h1, h2, h3, perform_health_checks, hk, htake]

/-- Witness for C2: a concrete fault-free deployment whose health-check step
raises immediately yields `success = true` and the single synthetic record. -/
theorem C2_deploy_success_and_synthetic_check_witness :
    (deploy "x" ⟨true, ⟨true, true⟩, ⟨true, true, .ok ["deployment/todo-app-be"]⟩,
        ⟨[], [], [], some 0⟩⟩).success = true ∧
    (deploy "x" ⟨true, ⟨true, true⟩, ⟨true, true, .ok ["deployment/todo-app-be"]⟩,
        ⟨[], [], [], some 0⟩⟩).health_checks = [syntheticFailedCheck] :=
  have h := C2_deploy_success_and_synthetic_check "x"
    ⟨true, ⟨true, true⟩, ⟨true, true, .ok ["deployment/todo-app-be"]⟩,
     ⟨[], [], [], some 0⟩⟩
    rfl rfl ⟨["deployment/todo-app-be"], rfl⟩
  ⟨h.1, h.2.2.1 0 rfl rfl⟩

/-- C4 counterexample: when `load_kube_config` raises after the temporary
kubeconfig was written, `_configure_k8s_client` re-raises without deleting the
file — the temporary credential file survives the step, so cleanup is not
guaranteed on every exit path. -/
theorem C4_counterexample :
    (configure_k8s_client ⟨true, false⟩).2 = true ∧
    (configure_k8s_client ⟨true, false⟩).1
        = Except.error "failed to configure client" := by
  exact ⟨rfl, rfl⟩

/-- C4 amended: in `_configure_k8s_client` and `_deploy_to_aks` the temporary
kubeconfig is deleted on the success path (and never created when the write
itself fails), but a failure after the file is written — client configuration
or the apply pipeline raising — leaves the file on disk. -/
theorem C4_amended_kubeconfig_cleanup (cfg : ConfigureEnv) (aks : AksEnv) :
    (configure_k8s_client cfg).2 = (cfg.writeOk && !cfg.loadOk) ∧
    (deploy_to_aks aks).2
      = (aks.templateOk && aks.writeOk &&
          (match aks.applyOutput with
           | .ok _ => false
           | .error _ => true)) := by
  constructor
  · rcases cfg with ⟨w, l⟩
    rcases w <;> rcases l <;> rfl
  · rcases aks with ⟨t, w, ap⟩
    rcases t <;> rcases w <;> rcases ap <;> rfl

/-- C6: In the health-check computation, a deployment or statefulset record is
ready exactly when its (None-coerced) ready-replica count equals the desired
count and the desired count is positive, and a service record is ready exactly
when it has at least one port; `_perform_health_checks` builds its records
from these three constructors. -/
theorem C6_health_check_readiness (name : String) (rr r ports : Option Nat) :
    ((mkDeploymentCheck name rr r).ready = true
        ↔ (rr.getD 0 = r.getD 0 ∧ 0 < r.getD 0)) ∧
    ((mkStatefulSetCheck name rr r).ready = true
        ↔ (rr.getD 0 = r.getD 0 ∧ 0 < r.getD 0)) ∧
    ((mkServiceCheck name ports).ready = true ↔ 0 < ports.getD 0) ∧
    perform_health_checks ⟨[(name, rr, r)], [(name, rr, r)], [(name, ports)], none⟩
      = [mkDeploymentCheck name rr r, mkStatefulSetCheck name rr r,
         mkServiceCheck name ports] := by
  refine ⟨?_, ?_, ?_, rfl⟩
  · simp [mkDeploymentCheck, Bool.and_eq_true, beq_iff_eq, decide_eq_true_eq]
  · simp [mkStatefulSetCheck, Bool.and_eq_true, beq_iff_eq, decide_eq_true_eq]
  · simp [mkServiceCheck, decide_eq_true_eq]

/-- An ASCII uppercase letter is not a `[-a-z0-9]` character. -/
theorem upper_not_labelChar (c : Char) (h : c.isUpper = true) :
    isLabelChar c = false := by
  simp only [Char.isUpper, decide_eq_true_eq, Bool.and_eq_true] at h
  have h1 : (65 : Nat) ≤ c.toNat := h.1
  have h2 : c.toNat ≤ 90 := h.2
  simp only [isLabelChar, isLowerAlnum, Bool.or_eq_false_iff,
    Bool.and_eq_false_iff, decide_eq_false_iff_not, not_le,
    beq_eq_false_iff_ne, ne_eq]
  refine ⟨⟨Or.inl ?_, Or.inr ?_⟩, ?_⟩
  · rw [Char.lt_def]
    show c.toNat < 97
    omega
  · rw [Char.lt_def]
    show 57 < c.toNat
    omega
  · intro hc
    subst hc
    simp at h1 h2

/-- A list containing a non-label character cannot match the label regex. -/
theorem labelMatch_eq_false_of_mem {l : List Char} {c : Char}
    (hm : c ∈ l) (hc : isLabelChar c = false) : labelMatch l = false := by
  unfold labelMatch
  cases hh : l.head? <;> cases hl : l.getLast? <;> try rfl
  simp only [Bool.and_eq_false_iff]
  right
  rw [List.all_eq_false]
  exact ⟨c, hm, by simp [hc]⟩

/-- A list whose first character is not `[a-z0-9]` cannot match the label
regex. -/
theorem labelMatch_eq_false_of_head {l : List Char} {c : Char}
    (hh : l.head? = some c) (hc : isLowerAlnum c = false) :
    labelMatch l = false := by
  unfold labelMatch
  rw [hh]
  cases hl : l.getLast? <;> try rfl
  simp [hc]

/-- A list whose last character is not `[a-z0-9]` cannot match the label
regex. -/
theorem labelMatch_eq_false_of_getLast {l : List Char} {c : Char}
    (hl : l.getLast? = some c) (hc : isLowerAlnum c = false) :
    labelMatch l = false := by
  unfold labelMatch
  rw [hl]
  cases hh : l.head? <;> try rfl
  simp [hc]

/-- A string containing a non-label character other than a newline fails the
branch-name regex (the lone tolerated newline is a single trailing one). -/
theorem regexAccepts_eq_false_of_mem {v : String} {c : Char}
    (hm : c ∈ v.data) (hc : isLabelChar c = false) (hne : c ≠ '\n') :
    regexAccepts v = false := by
  unfold regexAccepts
  rw [labelMatch_eq_false_of_mem hm hc]
  simp only [Bool.false_or, Bool.and_eq_false_iff]
  by_cases hl : v.data.getLast? = some '\n'
  · right
    have hnil : v.data ≠ [] := by
      intro h0
      rw [h0] at hm
      exact absurd hm (List.not_mem_nil c)
    have hsplit := List.dropLast_append_getLast hnil
    rw [← hsplit] at hm
    rcases List.mem_append.1 hm with hmem | hmem
    · exact labelMatch_eq_false_of_mem hmem hc
    · rcases List.mem_singleton.1 hmem with rfl
      rw [List.getLast?_eq_getLast _ hnil] at hl
      exact absurd (Option.some_injective _ hl) hne
  · left
    rw [beq_eq_false_iff_ne]
    exact hl

/-- The first character survives `dropLast` in a list of length at least
two. -/
theorem head?_dropLast {α : Type} (a b : α) (t : List α) :
    (a :: b :: t).dropLast.head? = some a := by
  rcases t with _ | ⟨x, xs⟩ <;> rfl

/-- C8 counterexample: the deployment request model accepts the branch name
`"Foo_Bar"` (uppercase letters and an underscore) — only emptiness is
validated there, so the claim fails for the deployment request model. -/
theorem C8_counterexample :
    deploymentValidateBranchName "Foo_Bar" = some "Foo_Bar" := by
  rfl

/-- C8 amended: the deprovision request model rejects every branch name
containing an uppercase letter, an underscore, a leading or trailing hyphen,
or more than 63 characters; the deployment request model rejects exactly the
names that are empty after trimming (so uppercase, underscores and overlong
names pass it). -/
theorem C8_amended_branch_validation (v : String) :
    (((∃ c ∈ v.data, c.isUpper = true) ∨ '_' ∈ v.data ∨
        v.data.head? = some '-' ∨ v.data.getLast? = some '-' ∨
        63 < v.length) →
      deprovisionRequestAccepts v = false) ∧
    (∀ w : String, deploymentValidateBranchName w = none ↔ pyStrip w = "") := by
  constructor
  · intro h
    rcases h with ⟨c, hm, hup⟩ | h | h | h | h
    · have hreg : regexAccepts v = false :=
        regexAccepts_eq_false_of_mem hm (upper_not_labelChar c hup)
          (by
            intro hc
            subst hc
            exact absurd hup (by decide))
      simp [deprovisionRequestAccepts, hreg]
    · have hreg : regexAccepts v = false :=
        regexAccepts_eq_false_of_mem h (by decide) (by decide)
      simp [deprovisionRequestAccepts, hreg]
    · have hreg : regexAccepts v = false := by
        unfold regexAccepts
        rw [labelMatch_eq_false_of_head h (by decide)]
        simp only [Bool.false_or, Bool.and_eq_false_iff]
        rcases hd : v.data with _ | ⟨a, _ | ⟨b, t⟩⟩
        · rw [hd] at h
          exact absurd h (by decide)
        · left
          rw [hd] at h
          injection h with h2
          subst h2
          decide
        · right
          rw [hd] at h
          injection h with h2
          subst h2
          exact labelMatch_eq_false_of_head (head?_dropLast _ _ _) (by decide)
      simp [deprovisionRequestAccepts, hreg]
    · have hreg : regexAccepts v = false := by
        unfold regexAccepts
        rw [labelMatch_eq_false_of_getLast h (by decide)]
        simp only [Bool.false_or, Bool.and_eq_false_iff]
        left
        rw [h]
        decide
      simp [deprovisionRequestAccepts, hreg]
    · have hlen : (decide (v.length ≤ 63)) = false := by
        simp only [decide_eq_false_iff_not, not_le]
        exact h
      simp [deprovisionRequestAccepts, hlen]
  · intro w
    unfold deploymentValidateBranchName
    by_cases h2 : pyStrip w = ""
    · simp [h2]
    · have h1 : (w == "") = false := by
        rw [beq_eq_false_iff_ne]
        intro h0
        subst h0
        exact h2 rfl
      simp [h1, h2]

/-- Witness for C8 amended at concrete inputs: an underscore-bearing name is
rejected by the deprovision model, and a whitespace-only name is rejected by
the deployment model. -/
theorem C8_amended_branch_validation_witness :
    deprovisionRequestAccepts "a_b" = false ∧
    deploymentValidateBranchName " " = none :=
  ⟨(C8_amended_branch_validation "a_b").1 (Or.inr (Or.inl (by decide))),
   ((C8_amended_branch_validation "a_b").2 " ").mpr (by decide)⟩

/-- Whether all three provisioning steps completed without exception. -/
def provStepsOk (env : ProvEnv) : Bool :=
  (match env.createDatabase with | .ok _ => true | .error _ => false) &&
  (match env.createCredential with | .ok _ => true | .error _ => false) &&
  (match env.createNamespace with | .ok _ => true | .error _ => false)

/-- C9 counterexample: a completed logical failure (database step raised) is
answered with HTTP 200, but its body has no `database_created`,
`credential_created`, `namespace_created` or `message` field — only `status`,
`branch_name`, `error`, `timing` and `correlation_id` — so the claim's field
list does not hold for every completed attempt. -/
theorem C9_counterexample :
    (provision_http (.ok "x") .ok ⟨.error "boom", .ok true, .ok true⟩ "cid").1
        = 200 ∧
    ((provision_http (.ok "x") .ok
        ⟨.error "boom", .ok true, .ok true⟩ "cid").2.map Prod.fst)
      = ["status", "branch_name", "error", "timing", "correlation_id"] ∧
    "message" ∉ ((provision_http (.ok "x") .ok
        ⟨.error "boom", .ok true, .ok true⟩ "cid").2.map Prod.fst) := by
  refine ⟨rfl, rfl, ?_⟩
  decide

/-- C9 amended: every completed provisioning attempt — success or logical
failure — is answered with HTTP 200; a successful attempt's body carries
`status`, `branch_name`, `database_created`, `credential_created`,
`namespace_created`, `message`, `timing` (plus `correlation_id`), while a
logical failure's body carries only `status`, `branch_name`, `error`,
`timing` (plus `correlation_id`); missing bodies and validation errors get
400, and unhandled service-construction faults get 500. -/
theorem C9_amended_provision_http (b : String) (env : ProvEnv)
    (init : InitOutcome) (cid : String) :
    (provision_http (.ok b) .ok env cid).1 = 200 ∧
    ((provision_http (.ok b) .ok env cid).2.map Prod.fst
      = if provStepsOk env then
          ["status", "branch_name", "database_created", "credential_created",
           "namespace_created", "message", "timing", "correlation_id"]
        else ["status", "branch_name", "error", "timing", "correlation_id"]) ∧
    (provision_http .missingBody init env cid).1 = 400 ∧
    (provision_http .validationError init env cid).1 = 400 ∧
    (provision_http (.ok b) .valueError env cid).1 = 400 ∧
    (provision_http (.ok b) .otherError env cid).1 = 500 := by
  refine ⟨rfl, ?_, ?_, ?_, rfl, rfl⟩
  · rcases env with ⟨d, c, n⟩
    rcases d with e | dv <;> rcases c with e2 | cv <;> rcases n with e3 | nv <;>
      simp [provision_http, provision_environment, provStepsOk]
  · cases init <;> rfl
  · cases init <;> rfl

end KubeMOOC
